import Mathlib

/-!
Shallow embedding of `option_recommender.py`: a Streamlit form that
validates a ticker and an OpenAI API key, composes an ordered list of
natural-language instructions plus a task prompt from the user's
strategy preferences, invokes an external agent once, and renders the
returned content (or the error message) to the user.
-/

namespace OptionRecommender

/-- The strategy selectbox values (source lines 48-54). -/
inductive StrategyType
  | any
  | coveredCall
  | put
  | call
  | ironCondor
  | straddle
  | strangle
  | creditSpread
  | debitSpread
deriving DecidableEq, Repr

/-- The exact string shown in the selectbox and interpolated into prompts. -/
def StrategyType.str : StrategyType → String
  | .any => "Any"
  | .coveredCall => "Covered Call"
  | .put => "Put"
  | .call => "Call"
  | .ironCondor => "Iron Condor"
  | .straddle => "Straddle"
  | .strangle => "Strangle"
  | .creditSpread => "Credit Spread"
  | .debitSpread => "Debit Spread"

/-- The timeframe selectbox values (source lines 55-58). -/
inductive Timeframe
  | oneWeek
  | twoWeeks
  | oneMonth
  | threeMonths
  | sixMonths
  | oneYear
deriving DecidableEq, Repr

/-- The exact string shown in the selectbox and interpolated into prompts. -/
def Timeframe.str : Timeframe → String
  | .oneWeek => "1 week"
  | .twoWeeks => "2 weeks"
  | .oneMonth => "1 month"
  | .threeMonths => "3 months"
  | .sixMonths => "6 months"
  | .oneYear => "1 year"

/-- Premium-focus text concatenated onto `strategy_instruction`
(source lines 74-81). -/
def premium_instruction : String :=
  "User wants to COLLECT PREMIUM (Theta Strategy). " ++
  "Prioritize selling options " ++
  "(e.g., Credit Spreads, Iron Condors, Covered Calls). " ++
  "Suggest strikes that are Out-of-The-Money (OTM) " ++
  "with high probability of expiring worthless. "

/-- Strategy clause for the `Any` branch (source lines 83-88). -/
def any_strategy_instruction (timeframe : Timeframe) : String :=
  "5. Recommended Strategy: Suggest ONE specific option strategy that best fits " ++
  "the analysis (and premium focus if selected), with a recommended " ++
  "duration/expiration of approximately " ++ timeframe.str ++ "."

/-- Strategy clause for a specific preferred strategy (source lines 89-96). -/
def specific_strategy_instruction (strategy_type : StrategyType)
    (timeframe : Timeframe) : String :=
  "5. Recommended Strategy: Evaluate if a " ++ strategy_type.str ++
  " strategy is suitable " ++
  "for the current market trend. If it is NOT suitable, recommend the best " ++
  "alternative strategy instead and explicitly explain why the user's preferred " ++
  "strategy (" ++ strategy_type.str ++ ") is risky or suboptimal. Specify the recommended " ++
  "duration/expiration of approximately " ++ timeframe.str ++ "."

/-- The branch on `strategy_type == "Any"` (source lines 83-96). -/
def recommended_strategy_instruction (strategy_type : StrategyType)
    (timeframe : Timeframe) : String :=
  if strategy_type = .any then any_strategy_instruction timeframe
  else specific_strategy_instruction strategy_type timeframe

/-- `strategy_instruction`, built by the `+=` concatenations of
source lines 72-96: the premium text (when `premium_focus`) followed by
the recommended-strategy clause. -/
def strategy_instruction (premium_focus : Bool) (strategy_type : StrategyType)
    (timeframe : Timeframe) : String :=
  (if premium_focus then premium_instruction else "") ++
  recommended_strategy_instruction strategy_type timeframe

/-- Instruction 1 of the fixed base list (source lines 107-114). -/
def instr1 : String :=
  "1. **Summary Table**: Start with a markdown table containing: " ++
  "'Price Target (Exact $)', 'Probability of Success %', " ++
  "'AI Confidence Score %'. " ++
  "You MUST provide at least 5 distinct rows with specific price targets for " ++
  "confidence always greater than 90%. IMMEDIATELY follow the table with this " ++
  "italicized note: *'Note: AI Confidence Score reflects the model's certainty " ++
  "based on the alignment of technical indicators, analyst consensus, " ++
  "vs market sentiment.'*"

/-- Instruction 2 of the fixed base list (source lines 116-117). -/
def instr2 : String :=
  "2. 'Quickbite Overview': Stock Price, Trend (Bullish/Bearish), " ++
  "and Key Catalyst (1 sentence)."

/-- Instruction 3 of the fixed base list (source lines 119-122). -/
def instr3 : String :=
  "3. Technical Analysis: State the **current RSI value** (e.g., 'RSI: 64'). " ++
  "Analyze it: if RSI > 70, consider 'Overbought' (lean bearish). " ++
  "If RSI < 30, consider 'Oversold' (lean bullish). " ++
  "Use this to justify the strategy."

/-- Instruction 4 of the fixed base list (source line 124). -/
def instr4 : String :=
  "4. Key Metrics Table: Display P/E, 52-Wk Range, and Analyst Consensus only."

/-- Instruction 5 of the fixed base list (source lines 126-127). -/
def instr5 : String :=
  "5. Market Sentiment: Summarize top 3 recent news items " ++
  "in 1 short bullet each."

/-- Instruction 6 of the fixed base list (source line 131). -/
def instr6 : String :=
  "6. Prediction: Give a concise Price Target Range (1 week)."

/-- Instruction 7 of the fixed base list (source lines 133-134). -/
def instr7 : String :=
  "7. Important: Keep the entire response short, scannable, and avoid " ++
  "long paragraphs. Use full width for tables."

/-- Instruction 8 of the fixed base list (source lines 136-137). -/
def instr8 : String :=
  "8. Disclaimer: This is for educational purposes only and is " ++
  "NOT financial advice."

/-- Instruction 9 of the fixed base list (source lines 139-140). -/
def instr9 : String :=
  "9. Fun Style: Use relevant emojis throughout the response to " ++
  "make it engaging and fun! 🤩"

/-- The ordered `instructions` list handed to the Agent constructor
(source lines 106-141): the first five base instructions, then
`strategy_instruction`, then the last four base instructions. -/
def instructions (premium_focus : Bool) (strategy_type : StrategyType)
    (timeframe : Timeframe) : List String :=
  [instr1, instr2, instr3, instr4, instr5,
   strategy_instruction premium_focus strategy_type timeframe,
   instr6, instr7, instr8, instr9]

/-- Clause-level view of the same instruction sequence: each `+=`
contribution to `strategy_instruction` is kept as its own clause. -/
def instructionClauses (premium_focus : Bool) (strategy_type : StrategyType)
    (timeframe : Timeframe) : List String :=
  [instr1, instr2, instr3, instr4, instr5] ++
  (if premium_focus then [premium_instruction] else []) ++
  [recommended_strategy_instruction strategy_type timeframe] ++
  [instr6, instr7, instr8, instr9]

/-- The task prompt passed to `agent.run` (source lines 149-153). -/
def task_prompt (ticker : String) (strategy_type : StrategyType)
    (timeframe : Timeframe) : String :=
  "Analyze " ++ ticker ++ " and predict its weekly price target with confidence and " ++
  "probability. Suggest a " ++ strategy_type.str ++ " option strategy with a " ++
  timeframe.str ++ " timeframe."

/-- The five user-supplied fields of one submission (source lines 41-59). -/
structure Request where
  ticker : String
  openai_api_key : String
  strategy_type : StrategyType
  timeframe : Timeframe
  premium_focus : Bool
deriving DecidableEq, Repr

/-- Everything passed to the external agent for one call: the Agent
constructor arguments (source lines 99-145) and the `run` arguments
(source lines 149-154). -/
structure AgentPayload where
  model_id : String
  api_key : String
  description : String
  instructions : List String
  markdown : Bool
  task : String
  stream : Bool
deriving DecidableEq, Repr

/-- The payload the submission handler builds for a validated request. -/
def mkPayload (req : Request) : AgentPayload :=
  { model_id := "gpt-4o"
    api_key := req.openai_api_key
    description := "You are an expert financial analyst and options trader."
    instructions := instructions req.premium_focus req.strategy_type req.timeframe
    markdown := true
    task := task_prompt req.ticker req.strategy_type req.timeframe
    stream := false }

/-- One user-visible output emitted during a submission: `st.error` or a
markdown rendering (`st.markdown`). -/
inductive Display
  | error (msg : String)
  | markdown (text : String)
deriving DecidableEq, Repr

/-- The submit-button handler (source lines 61-161). The external agent
is a parameter returning either a response content string or a raised
exception's text. Returns the user-visible outputs in order together
with the list of agent calls issued. -/
def submit (agent : AgentPayload → Except String String) (req : Request) :
    List Display × List AgentPayload :=
  if req.openai_api_key = "" then
    ([.error "Please enter your OpenAI API Key in the sidebar."], [])
  else if req.ticker = "" then
    ([.error "Please enter a stock ticker."], [])
  else
    match agent (mkPayload req) with
    | .ok response =>
        ([.markdown "### 📊 AI Analysis Report", .markdown response], [mkPayload req])
    | .error e =>
        ([.error ("An error occurred: " ++ e)], [mkPayload req])

/-- Module-initialization event-loop fixup (source lines 19-22):
`asyncio.get_event_loop()` succeeds iff a loop is installed, raising
`RuntimeError` otherwise. -/
def get_event_loop (state : Option Nat) : Except Unit Nat :=
  match state with
  | some l => .ok l
  | none => .error ()

/-- The try/except at module load: keep the current loop if
`get_event_loop` succeeds, otherwise install a fresh one. -/
def ensure_event_loop (new_loop : Nat) (state : Option Nat) : Option Nat :=
  match get_event_loop state with
  | .ok _ => state
  | .error _ => some new_loop

/-- Executable check that `l₁` is a prefix of `l₂`. -/
def hasPrefixB : List Char → List Char → Bool
  | [], _ => true
  | _ :: _, [] => false
  | a :: as, b :: bs => a == b && hasPrefixB as bs

/-- Executable check that `needle` occurs contiguously inside the
second list. -/
def hasSubB (needle : List Char) : List Char → Bool
  | [] => hasPrefixB needle []
  | b :: bs => hasPrefixB needle (b :: bs) || hasSubB needle bs

theorem hasPrefixB_iff (l₁ l₂ : List Char) : hasPrefixB l₁ l₂ = true ↔ l₁ <+: l₂ := by
  induction l₁ generalizing l₂ with
  | nil => simp [hasPrefixB]
  | cons a as ih =>
    cases l₂ with
    | nil => simp [hasPrefixB]
    | cons b bs => simp [hasPrefixB, ih]

theorem hasSubB_iff (l₁ l₂ : List Char) : hasSubB l₁ l₂ = true ↔ l₁ <:+: l₂ := by
  induction l₂ with
  | nil => simp [hasSubB, hasPrefixB_iff]
  | cons b bs ih =>
    rw [List.infix_cons_iff]
    simp [hasSubB, hasPrefixB_iff, ih]

/-- `needle` occurs as a literal substring of `hay`. -/
def containsSub (needle hay : String) : Prop :=
  needle.data <:+: hay.data

instance (needle hay : String) : Decidable (containsSub needle hay) :=
  decidable_of_iff (hasSubB needle.data hay.data = true) (hasSubB_iff _ _)

/-- A string embedded between two others occurs as a substring of the
concatenation. -/
theorem containsSub_append (pre mid post : String) :
    containsSub mid (pre ++ mid ++ post) := by
  refine ⟨pre.data, post.data, ?_⟩
  simp [String.data_append]

/-- The ticker is interpolated into the task prompt. -/
theorem ticker_in_task_prompt (ticker : String) (s : StrategyType) (t : Timeframe) :
    containsSub ticker (task_prompt ticker s t) := by
  refine ⟨("Analyze " : String).data,
    (" and predict its weekly price target with confidence and " ++
     "probability. Suggest a " ++ s.str ++ " option strategy with a " ++
     t.str ++ " timeframe.").data, ?_⟩
  simp [task_prompt, String.data_append]

/-- The strategy name is interpolated into the task prompt. -/
theorem strategy_in_task_prompt (ticker : String) (s : StrategyType) (t : Timeframe) :
    containsSub s.str (task_prompt ticker s t) := by
  refine ⟨("Analyze " : String).data ++ ticker.data ++
    (" and predict its weekly price target with confidence and " : String).data ++
    ("probability. Suggest a " : String).data,
    (" option strategy with a " ++ t.str ++ " timeframe.").data, ?_⟩
  simp [task_prompt, String.data_append]

/-- The timeframe is interpolated into the task prompt. -/
theorem timeframe_in_task_prompt (ticker : String) (s : StrategyType) (t : Timeframe) :
    containsSub t.str (task_prompt ticker s t) := by
  refine ⟨("Analyze " : String).data ++ ticker.data ++
    (" and predict its weekly price target with confidence and " : String).data ++
    ("probability. Suggest a " : String).data ++ s.str.data ++
    (" option strategy with a " : String).data,
    (" timeframe." : String).data, ?_⟩
  simp [task_prompt, String.data_append]

/-- The task prompt always asks for a weekly price target, no matter the
selected timeframe. -/
theorem weekly_in_task_prompt (ticker : String) (s : StrategyType) (t : Timeframe) :
    containsSub "predict its weekly price target" (task_prompt ticker s t) := by
  refine ⟨("Analyze " : String).data ++ ticker.data ++ (" and " : String).data,
    (" with confidence and " : String).data ++
    ("probability. Suggest a " : String).data ++ s.str.data ++
    (" option strategy with a " : String).data ++ t.str.data ++
    (" timeframe." : String).data, ?_⟩
  have hsplit : (" and predict its weekly price target with confidence and " : String).data =
      (" and " : String).data ++ ("predict its weekly price target" : String).data ++
      (" with confidence and " : String).data := by decide
  simp [task_prompt, String.data_append, hsplit]

/-- C1: whenever the credential (`openai_api_key`) is the empty string,
submission shows only the missing-credential error message and issues no
agent call: no payload (hence no instruction list or task prompt) is
ever sent. -/
theorem c1_missing_credential_no_agent_call
    (agent : AgentPayload → Except String String) (req : Request)
    (h : req.openai_api_key = "") :
    submit agent req =
      ([.error "Please enter your OpenAI API Key in the sidebar."], []) := by
  simp [submit, h]

/-- C1 witness: a concrete request with an empty credential. -/
theorem c1_missing_credential_no_agent_call_witness :
    submit (fun _ => .ok "report")
      { ticker := "NVDA", openai_api_key := "", strategy_type := .any,
        timeframe := .oneWeek, premium_focus := false } =
      ([.error "Please enter your OpenAI API Key in the sidebar."], []) :=
  c1_missing_credential_no_agent_call _ _ rfl

/-- C2: whenever the ticker is empty but the credential is non-empty,
submission shows only the missing-ticker error message and issues no
agent call. -/
theorem c2_missing_ticker_no_agent_call
    (agent : AgentPayload → Except String String) (req : Request)
    (hk : req.openai_api_key ≠ "") (ht : req.ticker = "") :
    submit agent req = ([.error "Please enter a stock ticker."], []) := by
  simp [submit, hk, ht]

/-- C2 witness: a concrete request with an empty ticker and a non-empty
credential. -/
theorem c2_missing_ticker_no_agent_call_witness :
    submit (fun _ => .ok "report")
      { ticker := "", openai_api_key := "sk-key", strategy_type := .any,
        timeframe := .oneWeek, premium_focus := false } =
      ([.error "Please enter a stock ticker."], []) :=
  c2_missing_ticker_no_agent_call _ _ (by decide) rfl

/-- C3: with the other fields fixed, turning `premium_focus` on inserts
exactly one extra clause — the premium-selling bias text — immediately
before the recommended-strategy clause, leaving every base instruction
in place and in order; at the level of the list handed to the agent,
only the strategy element changes, by prepending the premium text. -/
theorem c3_premium_focus_adds_one_clause (s : StrategyType) (t : Timeframe) :
    instructionClauses true s t =
      (instructionClauses false s t).take 5 ++
        premium_instruction :: (instructionClauses false s t).drop 5
    ∧ instructions true s t =
        (instructions false s t).set 5
          (premium_instruction ++ strategy_instruction false s t) := by
  constructor <;> rfl

/-- C9: the module-load event-loop fixup leaves an installed loop
untouched, installs a fresh loop only when none is installed, and
running it twice has the same effect as running it once. -/
theorem c9_event_loop_init_idempotent (s : Option Nat) (l n₁ n₂ : Nat) :
    ensure_event_loop n₁ (some l) = some l
    ∧ ensure_event_loop n₁ none = some n₁
    ∧ ensure_event_loop n₂ (ensure_event_loop n₁ s) = ensure_event_loop n₁ s := by
  refine ⟨rfl, rfl, ?_⟩
  cases s <;> rfl

set_option maxRecDepth 200000 in
/-- C4: with the `Any` strategy preference, the strategy instruction
handed to the agent is the unconstrained clause citing the selected
timeframe, and no instruction in the generated list asks the agent to
evaluate the suitability of a specific named strategy. -/
theorem c4_any_strategy_unconstrained (t : Timeframe) (p : Bool) :
    (containsSub "Suggest ONE specific option strategy" (strategy_instruction p .any t)
     ∧ containsSub t.str (strategy_instruction p .any t)
     ∧ strategy_instruction p .any t ∈ instructions p .any t)
    ∧ ∀ instr ∈ instructions p .any t, ¬ containsSub "Evaluate if a" instr := by
  cases p <;> cases t <;> decide

set_option maxRecDepth 200000 in
/-- C5: with strategy preference Iron Condor and timeframe "1 month",
the generated instruction text contains the literal substrings
"Iron Condor" and "1 month", whatever the premium-focus flag. -/
theorem c5_iron_condor_one_month (p : Bool) :
    containsSub "Iron Condor" (String.join (instructions p .ironCondor .oneMonth))
    ∧ containsSub "1 month" (String.join (instructions p .ironCondor .oneMonth)) := by
  cases p <;> decide

/-- The agent calls issued by a submission: none when validation fails,
exactly the one payload otherwise, whatever the agent answers. -/
theorem submit_snd (agent : AgentPayload → Except String String) (req : Request) :
    (submit agent req).2 =
      if req.openai_api_key = "" then []
      else if req.ticker = "" then []
      else [mkPayload req] := by
  unfold submit
  split_ifs with h1 h2
  · rfl
  · rfl
  · cases h : agent (mkPayload req) <;> simp [h]

/-- A sample validated request used to instantiate the theorems below. -/
def sampleRequest : Request :=
  { ticker := "NVDA", openai_api_key := "sk-key", strategy_type := .ironCondor,
    timeframe := .oneMonth, premium_focus := true }

/-- An agent stub that always raises. -/
def failingAgent : AgentPayload → Except String String :=
  fun _ => .error "boom"

/-- An agent stub that always answers. -/
def okAgent : AgentPayload → Except String String :=
  fun _ => .ok "the report"

/-- C6: when the credential and ticker are present and the agent call
raises, the submission shows exactly one user-visible message — the
generic failure text wrapping the exception's description — with no
report output, and the agent was invoked with the one payload. -/
theorem c6_agent_exception_single_error
    (agent : AgentPayload → Except String String) (req : Request) (e : String)
    (hk : req.openai_api_key ≠ "") (ht : req.ticker ≠ "")
    (herr : agent (mkPayload req) = .error e) :
    (submit agent req).1 = [.error ("An error occurred: " ++ e)]
    ∧ containsSub e ("An error occurred: " ++ e)
    ∧ (submit agent req).2 = [mkPayload req] := by
  refine ⟨?_, ⟨("An error occurred: " : String).data, [], by simp [String.data_append]⟩, ?_⟩ <;>
    simp [submit, hk, ht, herr]

/-- C6 witness: a concrete failing agent call. -/
theorem c6_agent_exception_single_error_witness :
    (submit failingAgent sampleRequest).1 = [.error ("An error occurred: " ++ "boom")]
    ∧ containsSub "boom" ("An error occurred: " ++ "boom")
    ∧ (submit failingAgent sampleRequest).2 = [mkPayload sampleRequest] :=
  c6_agent_exception_single_error failingAgent sampleRequest "boom"
    (by decide) (by decide) rfl

/-- C7: for a validated request the agent is invoked exactly once, with
the composed instruction list and the task prompt naming the ticker,
the strategy preference and the timeframe, markdown rendering on and
streaming off; when the call answers, its content is displayed under
the report header. -/
theorem c7_payload_single_call
    (agent : AgentPayload → Except String String) (req : Request)
    (hk : req.openai_api_key ≠ "") (ht : req.ticker ≠ "") :
    (submit agent req).2 = [mkPayload req]
    ∧ (mkPayload req).instructions =
        instructions req.premium_focus req.strategy_type req.timeframe
    ∧ (mkPayload req).task = task_prompt req.ticker req.strategy_type req.timeframe
    ∧ containsSub req.ticker (mkPayload req).task
    ∧ containsSub req.strategy_type.str (mkPayload req).task
    ∧ containsSub req.timeframe.str (mkPayload req).task
    ∧ (mkPayload req).markdown = true
    ∧ (mkPayload req).stream = false
    ∧ ∀ c, agent (mkPayload req) = .ok c →
        (submit agent req).1 =
          [.markdown "### 📊 AI Analysis Report", .markdown c] := by
  refine ⟨?_, rfl, rfl, ticker_in_task_prompt _ _ _, strategy_in_task_prompt _ _ _,
    timeframe_in_task_prompt _ _ _, rfl, rfl, ?_⟩
  · rw [submit_snd, if_neg hk, if_neg ht]
  · intro c hc
    simp [submit, hk, ht, hc]

/-- C7 witness: a concrete validated request against an answering agent. -/
theorem c7_payload_single_call_witness :
    (submit okAgent sampleRequest).2 = [mkPayload sampleRequest]
    ∧ (mkPayload sampleRequest).instructions =
        instructions sampleRequest.premium_focus sampleRequest.strategy_type
          sampleRequest.timeframe
    ∧ (mkPayload sampleRequest).task =
        task_prompt sampleRequest.ticker sampleRequest.strategy_type
          sampleRequest.timeframe
    ∧ containsSub sampleRequest.ticker (mkPayload sampleRequest).task
    ∧ containsSub sampleRequest.strategy_type.str (mkPayload sampleRequest).task
    ∧ containsSub sampleRequest.timeframe.str (mkPayload sampleRequest).task
    ∧ (mkPayload sampleRequest).markdown = true
    ∧ (mkPayload sampleRequest).stream = false
    ∧ ∀ c, okAgent (mkPayload sampleRequest) = .ok c →
        (submit okAgent sampleRequest).1 =
          [.markdown "### 📊 AI Analysis Report", .markdown c] :=
  c7_payload_single_call okAgent sampleRequest (by decide) (by decide)

/-- C8: prompt composition depends on nothing but the five input
fields — two requests agreeing on all five fields yield identical
instruction lists, task prompts and payloads — and the payload sent is
independent of the agent's behaviour. -/
theorem c8_prompt_composition_pure
    (agent₁ agent₂ : AgentPayload → Except String String) (r₁ r₂ : Request)
    (h1 : r₁.ticker = r₂.ticker) (h2 : r₁.openai_api_key = r₂.openai_api_key)
    (h3 : r₁.strategy_type = r₂.strategy_type) (h4 : r₁.timeframe = r₂.timeframe)
    (h5 : r₁.premium_focus = r₂.premium_focus) :
    instructions r₁.premium_focus r₁.strategy_type r₁.timeframe =
      instructions r₂.premium_focus r₂.strategy_type r₂.timeframe
    ∧ task_prompt r₁.ticker r₁.strategy_type r₁.timeframe =
        task_prompt r₂.ticker r₂.strategy_type r₂.timeframe
    ∧ mkPayload r₁ = mkPayload r₂
    ∧ (submit agent₁ r₁).2 = (submit agent₂ r₂).2 := by
  have hr : r₁ = r₂ := by
    cases r₁; cases r₂; simp_all
  subst hr
  exact ⟨rfl, rfl, rfl, by rw [submit_snd, submit_snd]⟩

/-- C8 witness: two different agent stubs, one concrete request. -/
theorem c8_prompt_composition_pure_witness :
    instructions sampleRequest.premium_focus sampleRequest.strategy_type
      sampleRequest.timeframe =
      instructions sampleRequest.premium_focus sampleRequest.strategy_type
        sampleRequest.timeframe
    ∧ task_prompt sampleRequest.ticker sampleRequest.strategy_type
        sampleRequest.timeframe =
        task_prompt sampleRequest.ticker sampleRequest.strategy_type
          sampleRequest.timeframe
    ∧ mkPayload sampleRequest = mkPayload sampleRequest
    ∧ (submit okAgent sampleRequest).2 = (submit failingAgent sampleRequest).2 :=
  c8_prompt_composition_pure okAgent failingAgent sampleRequest sampleRequest
    rfl rfl rfl rfl rfl

/-- C10: the base prediction instruction is the fixed "1 week" price
target clause for every timeframe, and the task prompt always asks for
the weekly price target — the prediction horizon is hard-coded and does
not vary with the selected timeframe. -/
theorem c10_hardcoded_weekly_horizon (p : Bool) (s : StrategyType) (t : Timeframe)
    (ticker : String) :
    instr6 ∈ instructions p s t
    ∧ instr6 = "6. Prediction: Give a concise Price Target Range (1 week)."
    ∧ containsSub "predict its weekly price target" (task_prompt ticker s t) :=
  ⟨by simp [instructions], rfl, weekly_in_task_prompt ticker s t⟩

end OptionRecommender
